import Mathlib

/-!
BBD plugin processor (Source/PluginProcessor.cpp).

A shallow embedding of `BbdAudioProcessor`: the parameter layout, the parameter
listener callback, `prepareToPlay`, `isBusesLayoutSupported`, `processBlock` and
`setStateInformation`, followed by the properties established about them.

C++ `float` and `double` values are kept as IEEE-754 bit patterns, so that NaN,
the infinities and the two zeros are ordinary values of the model.
-/

namespace Bbd

/-! ## IEEE-754 values -/

/-- A C++ `float`: an IEEE-754 binary32 bit pattern
(1 sign bit, 8 exponent bits, 23 fraction bits). -/
structure F32 where
  bits : Fin 4294967296
deriving DecidableEq, Repr

namespace F32

/-- Sign bit. -/
def sign (x : F32) : Bool := decide (2147483648 ≤ x.bits.val)

/-- Biased exponent field. -/
def exponent (x : F32) : Nat := (x.bits.val / 8388608) % 256

/-- Fraction field. -/
def fraction (x : F32) : Nat := x.bits.val % 8388608

/-- The bits without the sign: the magnitude, ordered as the absolute values are. -/
def magnitude (x : F32) : Nat := x.bits.val % 2147483648

/-- The value `0.0f` (positive zero, all bits clear). -/
def zero : F32 := ⟨0⟩

/-- The C++ test `std::isfinite (x)`: neither NaN nor an infinity. -/
def isFinite (x : F32) : Bool := decide (x.exponent ≠ 255)

/-- The C++ test `std::isnan (x)`. -/
def isNaN (x : F32) : Bool := decide (x.exponent = 255) && decide (x.fraction ≠ 0)

/-- The C++ test `x == 0.0f`: true of both `+0.0f` and `-0.0f`. -/
def isZero (x : F32) : Bool := decide (x.magnitude = 0)

/-- Order key: an integer that is ordered as the floats are, NaN apart. -/
def key (x : F32) : Int := if x.sign then - (x.magnitude : Int) else (x.magnitude : Int)

/-- The C++ comparison `x <= y` (false when either side is NaN). -/
def le (x y : F32) : Bool := !x.isNaN && !y.isNaN && decide (x.key ≤ y.key)

/-- The C++ comparison `x < y` (false when either side is NaN). -/
def lt (x y : F32) : Bool := !x.isNaN && !y.isNaN && decide (x.key < y.key)

/-- The exact rational value of a finite float, `none` for NaN and the infinities. -/
def toRat (x : F32) : Option ℚ :=
  if x.exponent = 255 then none
  else
    let m : ℚ := if x.exponent = 0 then (x.fraction : ℚ) / 2 ^ 149
      else ((8388608 + x.fraction : Nat) : ℚ) * 2 ^ x.exponent / 2 ^ 150
    some (if x.sign then -m else m)

end F32

/-- A C++ `double`: an IEEE-754 binary64 bit pattern
(1 sign bit, 11 exponent bits, 52 fraction bits). -/
structure F64 where
  bits : Fin 18446744073709551616
deriving DecidableEq, Repr

namespace F64

/-- The value `0.0`. -/
def zero : F64 := ⟨0⟩

/-- The C++ test `std::isnan (x)`. -/
def isNaN (x : F64) : Bool :=
  decide ((x.bits.val / 4503599627370496) % 2048 = 2047) &&
    decide (x.bits.val % 4503599627370496 ≠ 0)

/-- The C++ comparison `x <= 0.0`: not NaN, and either a zero or sign bit set. -/
def leZero (x : F64) : Bool :=
  !x.isNaN && (decide (x.bits.val % 9223372036854775808 = 0) ||
    decide (9223372036854775808 ≤ x.bits.val))

end F64

/-- The float literal `24.0`. -/
def f24 : F32 := ⟨0x41C00000⟩

/-- The float literal `-24.0`. -/
def fNeg24 : F32 := ⟨0xC1C00000⟩

/-- A quiet NaN. -/
def fNaN : F32 := ⟨0x7FC00000⟩

/-- The float `+infinity`. -/
def fInf : F32 := ⟨0x7F800000⟩

/-- The float literal `5.0`. -/
def f5 : F32 := ⟨0x40A00000⟩

/-! ## juce::AudioBuffer<float> -/

/-- A `juce::AudioBuffer<float>`: `size` is `getNumSamples ()`, and `channels` holds
the data of each channel; the samples of a channel are those at an index below
`size`. -/
structure AudioBuffer where
  size : Nat
  channels : List (List F32)
deriving DecidableEq, Repr

/-- The call `FloatVectorOperations::clear (data + start, num)`: write `0.0f` to `num`
consecutive samples starting at index `start`. -/
def clearSamples : List F32 → Nat → Nat → List F32
  | [], _, _ => []
  | x :: xs, 0, 0 => x :: xs
  | _ :: xs, 0, n + 1 => F32.zero :: clearSamples xs 0 n
  | x :: xs, s + 1, n => x :: clearSamples xs s n

namespace AudioBuffer

/-- The call `buffer.getNumChannels ()`. -/
def getNumChannels (b : AudioBuffer) : Nat := b.channels.length

/-- The call `buffer.getNumSamples ()`. -/
def getNumSamples (b : AudioBuffer) : Nat := b.size

/-- The call `buffer.getSample (channel, index)`; `none` outside the buffer. -/
def getSample (b : AudioBuffer) (channel index : Nat) : Option F32 :=
  if index < b.size then (b.channels[channel]?).bind (fun ch => ch[index]?) else none

/-- The call `buffer.clear (channel, startSample, numSamples)`. The framework
requires `channel` to be a channel of the buffer; a channel the buffer does not
have is left out here. -/
def clear (b : AudioBuffer) (channel startSample numSamples : Nat) : AudioBuffer :=
  { b with channels := b.channels.modify (fun ch => clearSamples ch startSample numSamples) channel }

end AudioBuffer

/-- The loop `for (auto i = first; i < first + count; ++i) body (i)`, threading the
state the body updates. -/
def forLoop {σ : Type} (body : Nat → σ → σ) : Nat → Nat → σ → σ
  | 0, _, s => s
  | count + 1, i, s => forLoop body count (i + 1) (body i s)

/-- The loop `for (auto i = lo; i < hi; ++i) body (i)`. -/
def forRange {σ : Type} (lo hi : Nat) (body : Nat → σ → σ) (s : σ) : σ :=
  forLoop body (hi - lo) lo s

/-! ## Framework types used by the processor -/

/-- A `juce::MidiBuffer`: the raw bytes of the queued events. -/
structure MidiBuffer where
  data : List Nat
deriving DecidableEq, Repr

/-- A `juce::AudioChannelSet`: the set of speaker positions, as the bit mask the
framework keeps (bit 1 = left, bit 2 = right, bit 3 = centre). -/
structure AudioChannelSet where
  channels : Nat
deriving DecidableEq, Repr

namespace AudioChannelSet

/-- The set `juce::AudioChannelSet::disabled ()`, the default-constructed empty set. -/
def disabled : AudioChannelSet := ⟨0⟩

/-- The set `juce::AudioChannelSet::mono ()`: the centre channel alone. -/
def mono : AudioChannelSet := ⟨8⟩

/-- The set `juce::AudioChannelSet::stereo ()`: left and right. -/
def stereo : AudioChannelSet := ⟨6⟩

end AudioChannelSet

/-- A `juce::AudioProcessor::BusesLayout`: the channel set of every input bus and
of every output bus. -/
structure BusesLayout where
  inputBuses : List AudioChannelSet
  outputBuses : List AudioChannelSet
deriving DecidableEq, Repr

namespace BusesLayout

/-- The call `layouts.getMainInputChannelSet ()`: bus 0 of the inputs, the empty set when
there is none. -/
def getMainInputChannelSet (l : BusesLayout) : AudioChannelSet :=
  l.inputBuses.headD AudioChannelSet.disabled

/-- The call `layouts.getMainOutputChannelSet ()`: bus 0 of the outputs, the empty set when
there is none. -/
def getMainOutputChannelSet (l : BusesLayout) : AudioChannelSet :=
  l.outputBuses.headD AudioChannelSet.disabled

end BusesLayout

/-- A `juce::RangedAudioParameter` as `createParameterLayout` builds them. -/
inductive RangedAudioParameter where
  | audioParameterFloat (parameterID name : String) (minValue maxValue defaultValue : F32)
  | audioParameterBool (parameterID name : String) (defaultValue : Bool)
deriving DecidableEq, Repr

namespace RangedAudioParameter

/-- The parameter id. -/
def paramID : RangedAudioParameter → String
  | audioParameterFloat parameterID _ _ _ _ => parameterID
  | audioParameterBool parameterID _ _ => parameterID

end RangedAudioParameter

/-- The part of `juce::AudioProcessorValueTreeState` the processor uses: the public
`state` member and the current raw value of each parameter, as
`*getRawParameterValue (id)` reads it. `Tree` stands for `juce::ValueTree`. -/
structure AudioProcessorValueTreeState (Tree : Type) where
  state : Tree
  rawParameterValue : String → F32

/-- The `juce::ValueTree` operations `setStateInformation` calls. They are library
code, so they are parameters of the model. -/
structure ValueTreeApi (Tree : Type) where
  /-- The call `juce::ValueTree::readFromData (data, numBytes)`. -/
  readFromData : List Nat → Nat → Tree
  /-- The call `tree.isValid ()`. -/
  isValid : Tree → Bool
  /-- The raw parameter values once `state` has been replaced by the given tree
  (the value tree state re-reads its parameters from the new tree). -/
  valuesAfterRedirect : AudioProcessorValueTreeState Tree → Tree → String → F32

/-! ## BbdAudioProcessor -/

/-- The members of `BbdAudioProcessor` the source reads and writes. The class
declaration (PluginProcessor.h) is not among the sources: `mix`, `regen` and `delay`
hold the `float` assigned to them, and the declared type of `modulate` (the source
stores a `float` in it, "float 1 or 0 works for boolean") is the parameter `M`, with
the conversion from `float` passed to the functions that store into it.
`totalNumInputChannels` and `totalNumOutputChannels` are what
`getTotalNumInputChannels ()` and `getTotalNumOutputChannels ()` return. -/
structure BbdAudioProcessor (M Tree : Type) where
  totalNumInputChannels : Nat
  totalNumOutputChannels : Nat
  treeState : AudioProcessorValueTreeState Tree
  mix : F32
  regen : F32
  delay : F32
  modulate : M

variable {M Tree : Type}

/-- The function `BbdAudioProcessor::createParameterLayout`. -/
def createParameterLayout : List RangedAudioParameter :=
  [ .audioParameterFloat "mix" "Mix" fNeg24 f24 F32.zero,
    .audioParameterFloat "regen" "Regen" fNeg24 f24 F32.zero,
    .audioParameterFloat "delay" "Delay" fNeg24 f24 F32.zero,
    .audioParameterBool "modulate" "Modulate" false ]

/-- The function `BbdAudioProcessor::parameterChanged`: four independent `if` statements. -/
def parameterChanged (toModulate : F32 → M) (p : BbdAudioProcessor M Tree)
    (parameterId : String) (newValue : F32) : BbdAudioProcessor M Tree :=
  let p := if parameterId = "mix" then { p with mix := newValue } else p
  let p := if parameterId = "regen" then { p with regen := newValue } else p
  let p := if parameterId = "delay" then { p with delay := newValue } else p
  let p := if parameterId = "modulate" then { p with modulate := toModulate newValue } else p
  p

/-- The function `BbdAudioProcessor::prepareToPlay`: neither argument is read. -/
def prepareToPlay (toModulate : F32 → M) (p : BbdAudioProcessor M Tree)
    (_sampleRate : F64) (_samplesPerBlock : Int) : BbdAudioProcessor M Tree :=
  let p := { p with mix := p.treeState.rawParameterValue "mix" }
  let p := { p with regen := p.treeState.rawParameterValue "regen" }
  let p := { p with delay := p.treeState.rawParameterValue "delay" }
  let p := { p with modulate := toModulate (p.treeState.rawParameterValue "modulate") }
  p

/-- The function `BbdAudioProcessor::isBusesLayoutSupported`; the two preprocessor switches
`JucePlugin_IsMidiEffect` and `JucePlugin_IsSynth` are arguments. -/
def isBusesLayoutSupported (jucePluginIsMidiEffect jucePluginIsSynth : Bool)
    (layouts : BusesLayout) : Bool :=
  if jucePluginIsMidiEffect then true
  else if layouts.getMainOutputChannelSet ≠ AudioChannelSet.mono
      ∧ layouts.getMainOutputChannelSet ≠ AudioChannelSet.stereo then false
  else if ¬ jucePluginIsSynth
      ∧ layouts.getMainOutputChannelSet ≠ layouts.getMainInputChannelSet then false
  else true

/-- The function `BbdAudioProcessor::processBlock`. The buffer is passed by reference, so the
buffer after the call is returned next to the processor. `ScopedNoDenormals` only
changes how arithmetic is carried out, and the block does none. The
`juce::dsp::AudioBlock` is a view of the buffer with the same channel and sample
counts. -/
def processBlock (p : BbdAudioProcessor M Tree) (buffer : AudioBuffer)
    (_midiMessages : MidiBuffer) : BbdAudioProcessor M Tree × AudioBuffer :=
  let totalNumInputChannels := p.totalNumInputChannels
  let totalNumOutputChannels := p.totalNumOutputChannels
  let buffer := forRange totalNumInputChannels totalNumOutputChannels
    (fun i b => b.clear i 0 b.getNumSamples) buffer
  let buffer := forRange 0 buffer.getNumChannels
    (fun _channel b => forRange 0 b.getNumSamples (fun _sample b => b) b) buffer
  (p, buffer)

/-- The function `BbdAudioProcessor::setStateInformation`. `size_t (sizeInBytes)` is the
conversion of an `int` to a 64-bit unsigned integer. The listener callbacks that
replacing `state` may trigger store only into the four members that the next four
statements overwrite. -/
def setStateInformation (juce : ValueTreeApi Tree) (toModulate : F32 → M)
    (p : BbdAudioProcessor M Tree) (data : List Nat) (sizeInBytes : Int) :
    BbdAudioProcessor M Tree :=
  let tree := juce.readFromData data (sizeInBytes % 18446744073709551616).toNat
  if juce.isValid tree then
    let p := { p with treeState :=
      { state := tree, rawParameterValue := juce.valuesAfterRedirect p.treeState tree } }
    let p := { p with mix := p.treeState.rawParameterValue "mix" }
    let p := { p with regen := p.treeState.rawParameterValue "regen" }
    let p := { p with delay := p.treeState.rawParameterValue "delay" }
    let p := { p with modulate := toModulate (p.treeState.rawParameterValue "modulate") }
    p
  else p

/-! ## Reference transform and predicates used in the statements -/

/-- The transform the specification describes for `processBlock`, sample by
sample: a sample of a channel below `nIn` is returned unchanged, a sample of a
channel from `nIn` up to `nOut` (excluded) is 0, and any other sample of the
buffer is left alone. -/
def referenceSample (nIn nOut : Nat) (buffer : AudioBuffer) (channel index : Nat) :
    Option F32 :=
  match buffer.getSample channel index with
  | none => none
  | some x =>
    if channel < nIn then some x
    else if channel < nOut then some F32.zero
    else some x

/-- Every sample of the buffer (every value below index `size` of every channel)
passes the test `P`. -/
def AudioBuffer.All (P : F32 → Bool) (b : AudioBuffer) : Prop :=
  ∀ ch ∈ b.channels, ∀ x ∈ ch.take b.size, P x = true

instance (P : F32 → Bool) (b : AudioBuffer) : Decidable (b.All P) := by
  unfold AudioBuffer.All
  infer_instance

/-- Every sample of the buffer compares equal to zero. -/
def AudioBuffer.AllZero (b : AudioBuffer) : Prop := b.All F32.isZero

instance (b : AudioBuffer) : Decidable b.AllZero := by
  unfold AudioBuffer.AllZero
  infer_instance

/-- Every sample of the buffer is finite. -/
def AudioBuffer.AllFinite (b : AudioBuffer) : Prop := b.All F32.isFinite

instance (b : AudioBuffer) : Decidable b.AllFinite := by
  unfold AudioBuffer.AllFinite
  infer_instance

/-- The conversion of a `float` to `bool`: true unless the value compares equal
to zero. -/
def floatToBool (v : F32) : Bool := !v.isZero

/-- The value `-0.0f`. -/
def fNegZero : F32 := ⟨0x80000000⟩

/-! ## Concrete inputs -/

/-- An instance of the value tree operations on which the model is evaluated: a
tree is `none` (the invalid tree) or the bytes it was read from, a blob of zero
length decodes to the invalid tree, and replacing the state resets every parameter
to `0.0f`. -/
def exampleApi : ValueTreeApi (Option (List Nat)) where
  readFromData := fun data numBytes => if numBytes = 0 then none else some (data.take numBytes)
  isValid := fun tree => tree.isSome
  valuesAfterRedirect := fun _ _ _ => F32.zero

/-- A stereo processor whose `mix` parameter stands at 5.0, the cached members
agreeing with the tree state. -/
def exampleProcessor : BbdAudioProcessor Bool (Option (List Nat)) where
  totalNumInputChannels := 2
  totalNumOutputChannels := 2
  treeState := { state := some [1], rawParameterValue := fun id => if id = "mix" then f5 else F32.zero }
  mix := f5
  regen := F32.zero
  delay := F32.zero
  modulate := false

/-- A processor with one input channel and two output channels. -/
def monoToStereoProcessor : BbdAudioProcessor Bool (Option (List Nat)) :=
  { exampleProcessor with totalNumInputChannels := 1 }

/-! ## Auxiliary lemmas -/

theorem clearSamples_getElem? (ch : List F32) (start num j : Nat) :
    (clearSamples ch start num)[j]? =
      if start ≤ j ∧ j < start + num then (ch[j]?).map (fun _ => F32.zero) else ch[j]? := by
  induction ch generalizing start num j with
  | nil => simp [clearSamples]
  | cons x xs ih =>
    cases start with
    | zero =>
      cases num with
      | zero => simp [clearSamples]
      | succ n =>
        cases j with
        | zero => simp [clearSamples]
        | succ j =>
          simp only [clearSamples, List.getElem?_cons_succ, ih]
          simp
    | succ s =>
      cases j with
      | zero => simp [clearSamples]
      | succ j =>
        simp only [clearSamples, List.getElem?_cons_succ, ih]
        have h : (s + 1 ≤ j + 1 ∧ j + 1 < s + 1 + num) ↔ (s ≤ j ∧ j < s + num) := by omega
        simp only [h]

theorem clear_size (b : AudioBuffer) (c start num : Nat) : (b.clear c start num).size = b.size :=
  rfl

theorem clear_getNumChannels (b : AudioBuffer) (c start num : Nat) :
    (b.clear c start num).getNumChannels = b.getNumChannels := by
  simp [AudioBuffer.clear, AudioBuffer.getNumChannels]

theorem clear_getSample (b : AudioBuffer) (i c j : Nat) :
    (b.clear i 0 b.getNumSamples).getSample c j =
      if c = i then (b.getSample c j).map (fun _ => F32.zero) else b.getSample c j := by
  unfold AudioBuffer.getSample AudioBuffer.clear AudioBuffer.getNumSamples
  by_cases hj : j < b.size
  · simp only [hj, if_true, List.getElem?_modify]
    by_cases hc : i = c
    · subst hc
      cases h : b.channels[i]? with
      | none => simp
      | some ch => simp [clearSamples_getElem?, hj]
    · have hc2 : ¬ c = i := fun h => hc h.symm
      cases h : b.channels[c]? <;> simp [hc, hc2]
  · simp [hj]

theorem forLoop_id {σ : Type} (count i : Nat) (s : σ) : forLoop (fun _ t => t) count i s = s := by
  induction count generalizing i with
  | zero => rfl
  | succ n ih => simp [forLoop, ih]

theorem forLoop_clear_size (count i : Nat) (b : AudioBuffer) :
    (forLoop (fun i b => b.clear i 0 b.getNumSamples) count i b).size = b.size := by
  induction count generalizing i b with
  | zero => rfl
  | succ n ih => simp [forLoop, ih, clear_size]

theorem forLoop_clear_getNumChannels (count i : Nat) (b : AudioBuffer) :
    (forLoop (fun i b => b.clear i 0 b.getNumSamples) count i b).getNumChannels
      = b.getNumChannels := by
  induction count generalizing i b with
  | zero => rfl
  | succ n ih => simp [forLoop, ih, clear_getNumChannels]

theorem forLoop_clear_getSample (count i : Nat) (b : AudioBuffer) (c j : Nat) :
    (forLoop (fun i b => b.clear i 0 b.getNumSamples) count i b).getSample c j =
      if i ≤ c ∧ c < i + count then (b.getSample c j).map (fun _ => F32.zero)
      else b.getSample c j := by
  induction count generalizing i b with
  | zero =>
    have h : ¬ (i ≤ c ∧ c < i + 0) := by omega
    simp only [forLoop, h, if_false]
  | succ n ih =>
    simp only [forLoop, ih, clear_getSample]
    by_cases h1 : c = i
    · subst h1
      have h2 : ¬ (c + 1 ≤ c ∧ c < c + 1 + n) := by omega
      have h3 : c ≤ c ∧ c < c + (n + 1) := by omega
      simp [h2, h3]
    · have h2 : (i + 1 ≤ c ∧ c < i + 1 + n) ↔ (i ≤ c ∧ c < i + (n + 1)) := by omega
      simp only [h1, if_false, h2]

/-- The buffer `processBlock` returns, sample by sample. -/
theorem processBlock_getSample (p : BbdAudioProcessor M Tree) (buffer : AudioBuffer)
    (midi : MidiBuffer) (c j : Nat) :
    (processBlock p buffer midi).2.getSample c j =
      if p.totalNumInputChannels ≤ c ∧ c < p.totalNumOutputChannels
      then (buffer.getSample c j).map (fun _ => F32.zero)
      else buffer.getSample c j := by
  simp only [processBlock, forRange, forLoop_id, forLoop_clear_getSample]
  have h : (p.totalNumInputChannels ≤ c ∧
      c < p.totalNumInputChannels + (p.totalNumOutputChannels - p.totalNumInputChannels)) ↔
      (p.totalNumInputChannels ≤ c ∧ c < p.totalNumOutputChannels) := by omega
  simp only [h]

theorem processBlock_size (p : BbdAudioProcessor M Tree) (buffer : AudioBuffer)
    (midi : MidiBuffer) : (processBlock p buffer midi).2.getNumSamples = buffer.getNumSamples := by
  simp only [processBlock, forRange, forLoop_id, AudioBuffer.getNumSamples]
  exact forLoop_clear_size _ _ _

theorem processBlock_getNumChannels (p : BbdAudioProcessor M Tree) (buffer : AudioBuffer)
    (midi : MidiBuffer) :
    (processBlock p buffer midi).2.getNumChannels = buffer.getNumChannels := by
  simp only [processBlock, forRange, forLoop_id, forLoop_clear_getNumChannels]

theorem all_iff_getSample (P : F32 → Bool) (b : AudioBuffer) :
    b.All P ↔ ∀ c j x, b.getSample c j = some x → P x = true := by
  constructor
  · intro h c j x hs
    unfold AudioBuffer.getSample at hs
    by_cases hj : j < b.size
    · simp only [hj, if_true] at hs
      cases hc : b.channels[c]? with
      | none => simp [hc] at hs
      | some ch =>
        simp only [hc, Option.some_bind] at hs
        refine h ch (List.getElem?_mem hc) x ?_
        refine List.getElem?_mem (n := j) ?_
        rw [List.getElem?_take_of_lt hj]
        exact hs
    · simp [hj] at hs
  · intro h ch hch x hx
    obtain ⟨c, hc⟩ := List.getElem?_of_mem hch
    obtain ⟨j, hj⟩ := List.getElem?_of_mem hx
    rw [List.getElem?_take] at hj
    by_cases hlt : j < b.size
    · simp only [hlt, if_true] at hj
      refine h c j x ?_
      simp [AudioBuffer.getSample, hlt, hc, hj]
    · simp [hlt] at hj

theorem f24_toRat : f24.toRat = some 24 := by
  have h : (f24.exponent, f24.fraction, f24.sign) = (131, 4194304, false) := by decide
  simp only [Prod.mk.injEq] at h
  obtain ⟨h1, h2, h3⟩ := h
  simp only [F32.toRat, h1, h2, h3]
  norm_num

theorem fNeg24_toRat : fNeg24.toRat = some (-24) := by
  have h : (fNeg24.exponent, fNeg24.fraction, fNeg24.sign) = (131, 4194304, true) := by decide
  simp only [Prod.mk.injEq] at h
  obtain ⟨h1, h2, h3⟩ := h
  simp only [F32.toRat, h1, h2, h3]
  norm_num

theorem zero_toRat : F32.zero.toRat = some 0 := by
  have h : (F32.zero.exponent, F32.zero.fraction, F32.zero.sign) = (0, 0, false) := by decide
  simp only [Prod.mk.injEq] at h
  obtain ⟨h1, h2, h3⟩ := h
  simp only [F32.toRat, h1, h2, h3]
  norm_num

theorem f5_toRat : f5.toRat = some 5 := by
  have h : (f5.exponent, f5.fraction, f5.sign) = (129, 2097152, false) := by decide
  simp only [Prod.mk.injEq] at h
  obtain ⟨h1, h2, h3⟩ := h
  simp only [F32.toRat, h1, h2, h3]
  norm_num

/-! ## processBlock -/

/-- C1: if every sample of the buffer passed to `processBlock` is zero, every
sample of the buffer after the call is zero, for every channel count and block
length and whatever the cached `regen` (0 included). -/
theorem processBlock_silence (p : BbdAudioProcessor M Tree) (buffer : AudioBuffer)
    (midi : MidiBuffer) (h : buffer.AllZero) : (processBlock p buffer midi).2.AllZero := by
  unfold AudioBuffer.AllZero at h ⊢
  rw [all_iff_getSample] at h ⊢
  intro c j x hx
  rw [processBlock_getSample] at hx
  split at hx
  · cases hb : buffer.getSample c j with
    | none => simp [hb] at hx
    | some y =>
      simp only [hb, Option.map_some', Option.some.injEq] at hx
      subst hx
      decide
  · exact h c j x hx

/-- C1, at a stereo block of two samples holding both zeros. -/
theorem processBlock_silence_witness :
    (AudioBuffer.mk 2 [[F32.zero, fNegZero], [F32.zero, F32.zero]]).AllZero ∧
    (processBlock exampleProcessor (AudioBuffer.mk 2 [[F32.zero, fNegZero], [F32.zero, F32.zero]])
      (MidiBuffer.mk [])).2.AllZero :=
  ⟨by decide, processBlock_silence exampleProcessor _ _ (by decide)⟩

/-- C5 as stated fails: a NaN and an infinity in the input of a stereo block are
both still in the buffer after `processBlock`. -/
theorem processBlock_nonfinite_counterexample :
    (processBlock exampleProcessor (AudioBuffer.mk 2 [[fNaN, f5], [f5, fInf]])
        (MidiBuffer.mk [])).2 = AudioBuffer.mk 2 [[fNaN, f5], [f5, fInf]] ∧
    fNaN.isFinite = false ∧ fInf.isFinite = false ∧
    ¬ (processBlock exampleProcessor (AudioBuffer.mk 2 [[fNaN, f5], [f5, fInf]])
        (MidiBuffer.mk [])).2.AllFinite := by
  decide

/-- C5, amended: `processBlock` brings no non-finite value into the buffer and
removes none from an input channel. If every input sample is finite so is every
sample afterwards; a sample of a channel outside the range from the input count to
the output count is handed back as it came, finite or not; a sample of a channel
inside that range is `0.0f`. -/
theorem processBlock_finite (p : BbdAudioProcessor M Tree) (buffer : AudioBuffer)
    (midi : MidiBuffer) :
    (buffer.AllFinite → (processBlock p buffer midi).2.AllFinite) ∧
    (∀ c j, ¬ (p.totalNumInputChannels ≤ c ∧ c < p.totalNumOutputChannels) →
      (processBlock p buffer midi).2.getSample c j = buffer.getSample c j) ∧
    (∀ c j x, p.totalNumInputChannels ≤ c ∧ c < p.totalNumOutputChannels →
      (processBlock p buffer midi).2.getSample c j = some x → x = F32.zero) := by
  refine ⟨?_, ?_, ?_⟩
  · intro h
    unfold AudioBuffer.AllFinite at h ⊢
    rw [all_iff_getSample] at h ⊢
    intro c j x hx
    rw [processBlock_getSample] at hx
    split at hx
    · cases hb : buffer.getSample c j with
      | none => simp [hb] at hx
      | some y =>
        simp only [hb, Option.map_some', Option.some.injEq] at hx
        subst hx
        decide
    · exact h c j x hx
  · intro c j hc
    rw [processBlock_getSample, if_neg hc]
  · intro c j x hc hx
    rw [processBlock_getSample, if_pos hc] at hx
    cases hb : buffer.getSample c j with
    | none => simp [hb] at hx
    | some y =>
      simp only [hb, Option.map_some', Option.some.injEq] at hx
      exact hx.symm

/-- C5 amended, at a block with one input and two output channels: the finite
block stays finite, and the second channel is cleared. -/
theorem processBlock_finite_witness :
    (AudioBuffer.mk 2 [[f5, f24], [f5, fNeg24]]).AllFinite ∧
    (processBlock monoToStereoProcessor (AudioBuffer.mk 2 [[f5, f24], [f5, fNeg24]])
      (MidiBuffer.mk [])).2.AllFinite ∧
    (processBlock monoToStereoProcessor (AudioBuffer.mk 2 [[f5, f24], [f5, fNeg24]])
      (MidiBuffer.mk [])).2.getSample 0 1 = some f24 :=
  ⟨by decide,
   (processBlock_finite monoToStereoProcessor _ _).1 (by decide),
   ((processBlock_finite monoToStereoProcessor (AudioBuffer.mk 2 [[f5, f24], [f5, fNeg24]])
      (MidiBuffer.mk [])).2.1 0 1 (by decide)).trans (by decide)⟩

/-- C8: `processBlock` is the reference transform. The buffer keeps its channel
and sample counts, every sample after the call is the sample the reference
transform gives (unchanged below the input channel count, 0 from there up to the
output channel count), the processor is returned as it was, and the cached `mix`,
`regen`, `delay` and `modulate` have no influence on the buffer returned. -/
theorem processBlock_eq_reference (p : BbdAudioProcessor M Tree) (buffer : AudioBuffer)
    (midi : MidiBuffer) :
    (processBlock p buffer midi).2.getNumChannels = buffer.getNumChannels ∧
    (processBlock p buffer midi).2.getNumSamples = buffer.getNumSamples ∧
    (∀ c j, (processBlock p buffer midi).2.getSample c j =
      referenceSample p.totalNumInputChannels p.totalNumOutputChannels buffer c j) ∧
    (processBlock p buffer midi).1 = p ∧
    (∀ (mix regen delay : F32) (modulate : M),
      (processBlock { p with mix := mix, regen := regen, delay := delay, modulate := modulate }
        buffer midi).2 = (processBlock p buffer midi).2) := by
  refine ⟨processBlock_getNumChannels p buffer midi, processBlock_size p buffer midi, ?_, rfl, ?_⟩
  · intro c j
    rw [processBlock_getSample]
    unfold referenceSample
    cases hb : buffer.getSample c j with
    | none => simp
    | some x =>
      by_cases h1 : c < p.totalNumInputChannels
      · have h2 : ¬ (p.totalNumInputChannels ≤ c ∧ c < p.totalNumOutputChannels) := by omega
        simp [h1, h2]
      · by_cases h3 : c < p.totalNumOutputChannels
        · have h2 : p.totalNumInputChannels ≤ c ∧ c < p.totalNumOutputChannels := by omega
          simp [h1, h2, h3]
        · have h2 : ¬ (p.totalNumInputChannels ≤ c ∧ c < p.totalNumOutputChannels) := by omega
          simp [h1, h2, h3]
  · intro mix regen delay modulate
    rfl

/-! ## Parameters -/

/-- C2: `createParameterLayout` declares exactly four parameters, with ids "mix",
"regen", "delay" and "modulate" in that order; "mix" and "regen" are float
parameters over the range from -24.0 to 24.0 with default 0.0, the default lying
inside the range; "modulate" is a boolean parameter with default false. -/
theorem createParameterLayout_spec :
    createParameterLayout.length = 4 ∧
    createParameterLayout.map RangedAudioParameter.paramID = ["mix", "regen", "delay", "modulate"] ∧
    createParameterLayout[0]? = some (.audioParameterFloat "mix" "Mix" fNeg24 f24 F32.zero) ∧
    createParameterLayout[1]? = some (.audioParameterFloat "regen" "Regen" fNeg24 f24 F32.zero) ∧
    createParameterLayout[3]? = some (.audioParameterBool "modulate" "Modulate" false) ∧
    fNeg24.toRat = some (-24) ∧ f24.toRat = some 24 ∧ F32.zero.toRat = some 0 ∧
    F32.le fNeg24 F32.zero = true ∧ F32.le F32.zero f24 = true :=
  ⟨by decide, by decide, by decide, by decide, by decide,
   fNeg24_toRat, f24_toRat, zero_toRat, by decide, by decide⟩

/-- C3: `parameterChanged (id, v)` stores `v` in the member named by `id` (for
"modulate", `v` converted to the type of the member) and leaves everything else of
the processor as it was; for an id that is none of "mix", "regen", "delay",
"modulate" the processor is unchanged. -/
theorem parameterChanged_frame (toModulate : F32 → M) (p : BbdAudioProcessor M Tree)
    (parameterId : String) (v : F32) :
    (parameterId = "mix" →
      parameterChanged toModulate p parameterId v = { p with mix := v }) ∧
    (parameterId = "regen" →
      parameterChanged toModulate p parameterId v = { p with regen := v }) ∧
    (parameterId = "delay" →
      parameterChanged toModulate p parameterId v = { p with delay := v }) ∧
    (parameterId = "modulate" →
      parameterChanged toModulate p parameterId v = { p with modulate := toModulate v }) ∧
    (parameterId ≠ "mix" → parameterId ≠ "regen" → parameterId ≠ "delay" →
      parameterId ≠ "modulate" → parameterChanged toModulate p parameterId v = p) := by
  refine ⟨?_, ?_, ?_, ?_, ?_⟩
  · intro h
    subst h
    simp [parameterChanged]
  · intro h
    subst h
    simp [parameterChanged]
  · intro h
    subst h
    simp [parameterChanged]
  · intro h
    subst h
    simp [parameterChanged]
  · intro h1 h2 h3 h4
    simp [parameterChanged, h1, h2, h3, h4]

/-- C3, at the id "regen" with the value 24.0 and at the unknown id "depth". -/
theorem parameterChanged_frame_witness :
    parameterChanged floatToBool exampleProcessor "regen" f24
      = { exampleProcessor with regen := f24 } ∧
    parameterChanged floatToBool exampleProcessor "depth" f24 = exampleProcessor :=
  ⟨(parameterChanged_frame floatToBool exampleProcessor "regen" f24).2.1 rfl,
   (parameterChanged_frame floatToBool exampleProcessor "depth" f24).2.2.2.2
     (by decide) (by decide) (by decide) (by decide)⟩

/-- C4 as stated fails: -24.0 lies in the declared range of "delay", and after
`parameterChanged ("delay", -24.0)` the processor holds the delay -24.0, which is
negative. -/
theorem delay_negative_counterexample :
    F32.le fNeg24 fNeg24 = true ∧ F32.le fNeg24 f24 = true ∧
    (parameterChanged floatToBool exampleProcessor "delay" fNeg24).delay = fNeg24 ∧
    F32.lt (parameterChanged floatToBool exampleProcessor "delay" fNeg24).delay F32.zero = true := by
  decide

/-- C4, amended: the delay the processor holds is the value delivered, unclamped.
`parameterChanged ("delay", v)` stores `v` itself, and `prepareToPlay` and a
`setStateInformation` that decodes a valid tree store the raw value of the "delay"
parameter of the tree state. -/
theorem delay_stored_unclamped (juce : ValueTreeApi Tree) (toModulate : F32 → M)
    (p : BbdAudioProcessor M Tree) (v : F32) (sampleRate : F64) (samplesPerBlock : Int)
    (data : List Nat) (sizeInBytes : Int) :
    (parameterChanged toModulate p "delay" v).delay = v ∧
    (prepareToPlay toModulate p sampleRate samplesPerBlock).delay
      = p.treeState.rawParameterValue "delay" ∧
    (juce.isValid (juce.readFromData data (sizeInBytes % 18446744073709551616).toNat) = true →
      (setStateInformation juce toModulate p data sizeInBytes).delay
        = (setStateInformation juce toModulate p data sizeInBytes).treeState.rawParameterValue
            "delay") := by
  refine ⟨?_, rfl, ?_⟩
  · simp [parameterChanged]
  · intro h
    simp [setStateInformation, h]

/-- C4 amended, at a one-byte blob that decodes to a valid tree. -/
theorem delay_stored_unclamped_witness :
    exampleApi.isValid (exampleApi.readFromData [7] ((1 : Int) % 18446744073709551616).toNat)
      = true ∧
    (setStateInformation exampleApi floatToBool exampleProcessor [7] 1).delay
      = (setStateInformation exampleApi floatToBool exampleProcessor [7] 1).treeState.rawParameterValue
          "delay" :=
  ⟨by decide,
   (delay_stored_unclamped exampleApi floatToBool exampleProcessor f5 F64.zero 0 [7] 1).2.2
     (by decide)⟩

/-! ## prepareToPlay -/

/-- C6 as stated fails: with the cached `mix` at 24.0 and the tree state holding
5.0, `prepareToPlay (0.0, 0)` is not refused and changes the cached `mix`. -/
theorem prepareToPlay_counterexample :
    F64.leZero F64.zero = true ∧ (0 : Int) ≤ 0 ∧
    (parameterChanged floatToBool exampleProcessor "mix" f24).mix = f24 ∧
    (prepareToPlay floatToBool (parameterChanged floatToBool exampleProcessor "mix" f24)
      F64.zero 0).mix = f5 ∧
    (prepareToPlay floatToBool (parameterChanged floatToBool exampleProcessor "mix" f24)
      F64.zero 0).mix ≠ (parameterChanged floatToBool exampleProcessor "mix" f24).mix := by
  decide

/-- C6, amended: `prepareToPlay` reads neither argument and refuses no call. For
every sample rate and block size it leaves the tree state and the channel counts
as they were and reloads each cached value from the raw value of the parameter
with the same id; so the processor is left exactly as it was if and only if the
cached values already were those raw values. -/
theorem prepareToPlay_reloads (toModulate : F32 → M) (p : BbdAudioProcessor M Tree)
    (sampleRate : F64) (samplesPerBlock : Int) :
    prepareToPlay toModulate p sampleRate samplesPerBlock =
      { p with mix := p.treeState.rawParameterValue "mix",
               regen := p.treeState.rawParameterValue "regen",
               delay := p.treeState.rawParameterValue "delay",
               modulate := toModulate (p.treeState.rawParameterValue "modulate") } ∧
    (prepareToPlay toModulate p sampleRate samplesPerBlock = p ↔
      p.mix = p.treeState.rawParameterValue "mix" ∧
      p.regen = p.treeState.rawParameterValue "regen" ∧
      p.delay = p.treeState.rawParameterValue "delay" ∧
      p.modulate = toModulate (p.treeState.rawParameterValue "modulate")) := by
  refine ⟨rfl, ?_⟩
  constructor
  · intro h
    have h1 := congrArg BbdAudioProcessor.mix h
    have h2 := congrArg BbdAudioProcessor.regen h
    have h3 := congrArg BbdAudioProcessor.delay h
    have h4 := congrArg BbdAudioProcessor.modulate h
    exact ⟨h1.symm, h2.symm, h3.symm, h4.symm⟩
  · rintro ⟨h1, h2, h3, h4⟩
    cases p
    simp only [prepareToPlay] at *
    simp [← h1, ← h2, ← h3, ← h4]

/-- C6 amended, at a sample rate and a block size of zero on a processor whose
cached values agree with the tree state. -/
theorem prepareToPlay_reloads_witness :
    prepareToPlay floatToBool exampleProcessor F64.zero 0 = exampleProcessor :=
  (prepareToPlay_reloads floatToBool exampleProcessor F64.zero 0).2.mpr
    ⟨by decide, by decide, by decide, by decide⟩

/-! ## isBusesLayoutSupported -/

/-- C9: built as neither a MIDI effect nor a synth, `isBusesLayoutSupported`
returns true if and only if the main output channel set is mono or stereo and the
main input channel set equals the main output channel set. -/
theorem isBusesLayoutSupported_iff (layouts : BusesLayout) :
    isBusesLayoutSupported false false layouts = true ↔
      (layouts.getMainOutputChannelSet = AudioChannelSet.mono ∨
        layouts.getMainOutputChannelSet = AudioChannelSet.stereo) ∧
      layouts.getMainInputChannelSet = layouts.getMainOutputChannelSet := by
  unfold isBusesLayoutSupported
  by_cases h1 : layouts.getMainOutputChannelSet = AudioChannelSet.mono
  · by_cases h3 : layouts.getMainInputChannelSet = AudioChannelSet.mono
    · simp [h1, h3]
    · have h4 : ¬ AudioChannelSet.mono = layouts.getMainInputChannelSet := fun h => h3 h.symm
      simp [h1, h3, h4]
  · by_cases h2 : layouts.getMainOutputChannelSet = AudioChannelSet.stereo
    · by_cases h3 : layouts.getMainInputChannelSet = AudioChannelSet.stereo
      · simp [h2, h3]
      · have h4 : ¬ AudioChannelSet.stereo = layouts.getMainInputChannelSet :=
          fun h => h3 h.symm
        simp [h2, h3, h4]
    · simp [h1, h2]

/-! ## setStateInformation -/

/-- C7 as stated fails: with `mix` at 5.0, a blob of zero length decodes to the
invalid tree and `setStateInformation` leaves `mix` at 5.0, which is not the
default 0.0. -/
theorem setStateInformation_malformed_counterexample :
    exampleApi.isValid (exampleApi.readFromData [] ((0 : Int) % 18446744073709551616).toNat)
      = false ∧
    (setStateInformation exampleApi floatToBool exampleProcessor [] 0).mix = f5 ∧
    (setStateInformation exampleApi floatToBool exampleProcessor [] 0).mix ≠ F32.zero := by
  decide

/-- C7, amended: for every blob that does not decode to a valid tree,
`setStateInformation` completes and substitutes nothing: `mix`, `regen`, `delay`
and `modulate` hold afterwards the values they held before the call. -/
theorem setStateInformation_malformed_keeps (juce : ValueTreeApi Tree) (toModulate : F32 → M)
    (p : BbdAudioProcessor M Tree) (data : List Nat) (sizeInBytes : Int)
    (h : juce.isValid (juce.readFromData data (sizeInBytes % 18446744073709551616).toNat)
      = false) :
    (setStateInformation juce toModulate p data sizeInBytes).mix = p.mix ∧
    (setStateInformation juce toModulate p data sizeInBytes).regen = p.regen ∧
    (setStateInformation juce toModulate p data sizeInBytes).delay = p.delay ∧
    (setStateInformation juce toModulate p data sizeInBytes).modulate = p.modulate := by
  simp [setStateInformation, h]

/-- C7 amended, at a blob of zero length. -/
theorem setStateInformation_malformed_keeps_witness :
    exampleApi.isValid (exampleApi.readFromData [] ((0 : Int) % 18446744073709551616).toNat)
      = false ∧
    (setStateInformation exampleApi floatToBool exampleProcessor [] 0).mix = exampleProcessor.mix :=
  ⟨by decide,
   (setStateInformation_malformed_keeps exampleApi floatToBool exampleProcessor [] 0
     (by decide)).1⟩

/-- C10: `setStateInformation` changes nothing when the decoded tree is not valid
(the processor, tree state and cached values included, is what it was before);
when the decoded tree is valid the state of the tree state becomes that tree and
each cached value is the raw value the tree state then holds for the parameter
with the same id (for `modulate`, converted to the type of the member). -/
theorem setStateInformation_atomic (juce : ValueTreeApi Tree) (toModulate : F32 → M)
    (p : BbdAudioProcessor M Tree) (data : List Nat) (sizeInBytes : Int) :
    (juce.isValid (juce.readFromData data (sizeInBytes % 18446744073709551616).toNat) = false →
      setStateInformation juce toModulate p data sizeInBytes = p) ∧
    (juce.isValid (juce.readFromData data (sizeInBytes % 18446744073709551616).toNat) = true →
      (setStateInformation juce toModulate p data sizeInBytes).treeState.state
        = juce.readFromData data (sizeInBytes % 18446744073709551616).toNat ∧
      (setStateInformation juce toModulate p data sizeInBytes).mix
        = (setStateInformation juce toModulate p data sizeInBytes).treeState.rawParameterValue
            "mix" ∧
      (setStateInformation juce toModulate p data sizeInBytes).regen
        = (setStateInformation juce toModulate p data sizeInBytes).treeState.rawParameterValue
            "regen" ∧
      (setStateInformation juce toModulate p data sizeInBytes).delay
        = (setStateInformation juce toModulate p data sizeInBytes).treeState.rawParameterValue
            "delay" ∧
      (setStateInformation juce toModulate p data sizeInBytes).modulate
        = toModulate
            ((setStateInformation juce toModulate p data sizeInBytes).treeState.rawParameterValue
              "modulate")) := by
  constructor
  · intro h
    simp [setStateInformation, h]
  · intro h
    simp [setStateInformation, h]

/-- C10, at a blob of zero length (not valid) and at a one-byte blob (valid). -/
theorem setStateInformation_atomic_witness :
    setStateInformation exampleApi floatToBool exampleProcessor [] 0 = exampleProcessor ∧
    (setStateInformation exampleApi floatToBool exampleProcessor [7] 1).treeState.state
      = some [7] ∧
    (setStateInformation exampleApi floatToBool exampleProcessor [7] 1).mix = F32.zero :=
  ⟨(setStateInformation_atomic exampleApi floatToBool exampleProcessor [] 0).1 (by decide),
   ((setStateInformation_atomic exampleApi floatToBool exampleProcessor [7] 1).2
      (by decide)).1.trans (by decide),
   ((setStateInformation_atomic exampleApi floatToBool exampleProcessor [7] 1).2
      (by decide)).2.1.trans (by decide)⟩

end Bbd
